import Mathlib

/-!
Verification of the login-security subsystem of the rentverse backend.

The definitions below are a shallow embedding of the JavaScript source:

* `OtpService` (`src/services/otp.service.js`): `checkAccountLock`,
  `recordFailedAttempt`, `resetLoginAttempts`, `createOtp`, `verifyOtp`,
  `cleanupExpiredOtps`;
* the `POST /api/auth/login` route of `src/routes/auth.js`;
* `calculateRiskScore` of `src/services/suspiciousActivity.service.js`;
* `createAlert` / `sendAlertEmail` of `src/services/securityAlert.service.js`;
* the admin unlock endpoint and the `POST /api/auth/forgot-password/reset`
  route, as far as they touch the account lockout fields.

Conventions of the embedding:

* Database rows become Lean structures; the single account a request touches
  is passed and returned explicitly.
* Timestamps are natural numbers measured in minutes (the code stores
  JavaScript `Date`s; every comparison in the modelled code is a plain
  order comparison, so the unit is irrelevant as long as it is uniform).
  The risk-score service uses milliseconds internally; its windows are kept
  in milliseconds there, again only compared on one scale.
* `bcrypt` hashing is modelled by the identity: a stored hash is the number
  it hashes, and `bcrypt.compare` is equality.  This keeps the control flow
  of the source intact while abstracting the cryptography.
* A JavaScript exception thrown by an awaited call is modelled with
  `Except Unit`; the route-level `try/catch` that converts an escaped
  exception into an HTTP 500 response is modelled explicitly.
-/

/-- Configuration constant `MAX_LOGIN_ATTEMPTS = 5` from `otp.service.js`. -/
def MAX_LOGIN_ATTEMPTS : Nat := 5

/-- Configuration constant `LOCKOUT_DURATION_MINUTES = 15` from `otp.service.js`. -/
def LOCKOUT_DURATION_MINUTES : Nat := 15

/-- Configuration constant `OTP_EXPIRY_MINUTES = 5` from `otp.service.js`. -/
def OTP_EXPIRY_MINUTES : Nat := 5

/-- Configuration constant `MAX_OTP_ATTEMPTS = 5` from `otp.service.js`. -/
def MAX_OTP_ATTEMPTS : Nat := 5

/-- The lockout-relevant columns of the `user` table: `loginAttempts`,
`lockedUntil`, `mfaEnabled`, `isActive` and the stored password hash. -/
structure AccountState where
  id : Nat
  loginAttempts : Nat
  lockedUntil : Option Nat
  mfaEnabled : Bool
  isActive : Bool
  password : Nat
deriving DecidableEq, Repr

/-- `OtpService.checkAccountLock`: the account counts as locked exactly when
`lockedUntil` is set and `new Date() < lockedUntil` (strict comparison). -/
def lockActive (u : AccountState) (now : Nat) : Bool :=
  match u.lockedUntil with
  | some t => decide (now < t)
  | none => false

/-- Result object of `OtpService.recordFailedAttempt`. -/
structure FailedAttemptInfo where
  locked : Bool
  attemptsRemaining : Nat
deriving DecidableEq, Repr

/-- `OtpService.recordFailedAttempt`: increment `loginAttempts`; when the new
count reaches `MAX_LOGIN_ATTEMPTS` also set `lockedUntil` to now plus
`LOCKOUT_DURATION_MINUTES`. -/
def recordFailedAttempt (u : AccountState) (now : Nat) :
    FailedAttemptInfo × AccountState :=
  let newAttempts := u.loginAttempts + 1
  let shouldLock := decide (newAttempts ≥ MAX_LOGIN_ATTEMPTS)
  let u' :=
    if shouldLock then
      { u with loginAttempts := newAttempts,
               lockedUntil := some (now + LOCKOUT_DURATION_MINUTES) }
    else
      { u with loginAttempts := newAttempts }
  (⟨shouldLock, MAX_LOGIN_ATTEMPTS - newAttempts⟩, u')

/-- `OtpService.resetLoginAttempts`: zero the counter and clear the lock. -/
def resetLoginAttempts (u : AccountState) : AccountState :=
  { u with loginAttempts := 0, lockedUntil := none }

/-- Outcome tag of a login response, one per return site of the
`POST /api/auth/login` handler. -/
inductive LoginOutcome where
  | invalid
  | lockedOut
  | lockedNow
  | mfaRequired
  | ok
  | serverError
deriving DecidableEq, Repr

/-- The user-visible part of a login response: outcome tag, HTTP status,
the `success` flag and the `message` string. -/
structure LoginResult where
  outcome : LoginOutcome
  status : Nat
  success : Bool
  message : String
deriving DecidableEq, Repr

/-- Response of the `!user || !user.isActive` branch (HTTP 401). -/
def invalidCredsRes : LoginResult :=
  ⟨.invalid, 401, false, "Invalid credentials"⟩

/-- Response of the already-locked branch (HTTP 423); `remaining` is the
number of minutes until `lockedUntil`. -/
def lockedRes (remaining : Nat) : LoginResult :=
  ⟨.lockedOut, 423, false,
    "Account is temporarily locked. Please try again in " ++ toString remaining
      ++ " minute(s)."⟩

/-- Response sent when this failed attempt just locked the account. -/
def lockedNowRes : LoginResult :=
  ⟨.lockedNow, 423, false,
    "Too many failed attempts. Account is temporarily locked for 15 minutes."⟩

/-- Response of the wrong-password branch that did not lock the account. -/
def invalidRemainingRes (remaining : Nat) : LoginResult :=
  ⟨.invalid, 401, false,
    "Invalid credentials. " ++ toString remaining ++ " attempt(s) remaining."⟩

/-- Response of the MFA branch: HTTP 200 with `success: true`. -/
def mfaRequiredRes : LoginResult :=
  ⟨.mfaRequired, 200, true, "MFA verification required"⟩

/-- Response of the full-success branch. -/
def okRes : LoginResult :=
  ⟨.ok, 200, true, "Login successful"⟩

/-- Response produced by the route-level `catch` (HTTP 500). -/
def serverErrorRes : LoginResult :=
  ⟨.serverError, 500, false, "Internal server error"⟩

/-- `securityAlert.service.js` `sendAlertEmail`: the email send is wrapped in
its own `try/catch` and the function returns `false` on failure, so a failed
delivery never escapes as an exception.  `emailOk` says whether the
underlying send succeeds. -/
def sendAlertEmail (emailOk : Bool) : Bool :=
  emailOk

/-- `securityAlert.service.js` `createAlert`: creating the alert record can
throw (the surrounding `catch` logs and rethrows, modelled as `.error ()`),
while the email step only contributes the returned `emailSent` flag.
`dbOk` says whether the database writes succeed. -/
def createAlert (dbOk emailOk : Bool) : Except Unit Bool :=
  if dbOk then .ok (sendAlertEmail emailOk) else .error ()

/-- The body of `POST /api/auth/login` after the lock check: password
comparison, failed-attempt bookkeeping (including the account-locked alert),
the MFA branch, and the reset on success.  `alertDbOk` / `alertEmailOk`
say whether the security-alert record creation and email delivery succeed;
a thrown alert error reaches the route-level `catch` and yields HTTP 500. -/
def loginUnlocked (u : AccountState) (pw now : Nat) (alertDbOk alertEmailOk : Bool) :
    LoginResult × AccountState :=
  if pw ≠ u.password then
    let fr := recordFailedAttempt u now
    if fr.1.locked then
      match createAlert alertDbOk alertEmailOk with
      | .error _ => (serverErrorRes, fr.2)
      | .ok _ => (lockedNowRes, fr.2)
    else
      (invalidRemainingRes fr.1.attemptsRemaining, fr.2)
  else if u.mfaEnabled then
    (mfaRequiredRes, u)
  else
    (okRes, resetLoginAttempts u)

/-- The `POST /api/auth/login` handler for an existing account: the
`isActive` check, the `checkAccountLock` gate, then `loginUnlocked`. -/
def loginUser (u : AccountState) (pw now : Nat) (alertDbOk alertEmailOk : Bool) :
    LoginResult × AccountState :=
  if u.isActive = false then
    (invalidCredsRes, u)
  else
    match u.lockedUntil with
    | some t =>
      if now < t then (lockedRes (t - now), u)
      else loginUnlocked u pw now alertDbOk alertEmailOk
    | none => loginUnlocked u pw now alertDbOk alertEmailOk

/-- The full `POST /api/auth/login` handler including the user lookup:
a missing account takes the same `Invalid credentials` branch as an
inactive one. -/
def login (user? : Option AccountState) (pw now : Nat)
    (alertDbOk alertEmailOk : Bool) : LoginResult × Option AccountState :=
  match user? with
  | none => (invalidCredsRes, none)
  | some u =>
    let r := loginUser u pw now alertDbOk alertEmailOk
    (r.1, some r.2)

/-- Response of `POST /api/auth/check-email`: the endpoint reports whether
the email is registered and, when it is, whether the account is active. -/
structure CheckEmailResult where
  existsFlag : Bool
  isActiveFlag : Option Bool
deriving DecidableEq, Repr

/-- `POST /api/auth/check-email`: returns `exists: false` for an unknown
email and `exists: true` with the `isActive` flag otherwise. -/
def checkEmail (user? : Option AccountState) : CheckEmailResult :=
  match user? with
  | none => ⟨false, none⟩
  | some u => ⟨true, some u.isActive⟩

/-- The admin `PATCH /api/admin/users/:id/unlock` endpoint: clears
`lockedUntil` and zeroes `loginAttempts` unconditionally. -/
def adminUnlockUser (u : AccountState) : AccountState :=
  { u with lockedUntil := none, loginAttempts := 0 }

/-- The `POST /api/auth/forgot-password/reset` update: stores the new
password hash and zeroes `loginAttempts` / `lockedUntil`. -/
def resetPasswordUser (u : AccountState) (newPw : Nat) : AccountState :=
  { u with password := newPw, loginAttempts := 0, lockedUntil := none }

/-- Iterated wrong-password login attempts against the same account, all
evaluated at clock value `now` (consecutive attempts). -/
def wrongLogins (u : AccountState) (pw now : Nat) : Nat → AccountState
  | 0 => u
  | n + 1 => (loginUser (wrongLogins u pw now n) pw now true true).2

/-- A row of the `otpCode` table: owner, purpose (`type`), stored code hash,
expiry, `usedAt`, per-code attempt counter and creation time. -/
structure OtpRecord where
  rid : Nat
  userId : Nat
  otpType : Nat
  code : Nat
  expiresAt : Nat
  usedAt : Option Nat
  attempts : Nat
  createdAt : Nat
deriving DecidableEq, Repr

/-- The `where` clause `userId, type, usedAt: null` used both by the
invalidation step of `createOtp` and by the lookup of `verifyOtp`. -/
def isUnusedFor (uid ty : Nat) (r : OtpRecord) : Bool :=
  r.userId == uid && r.otpType == ty && r.usedAt.isNone

/-- Number of unused codes a `(userId, type)` pair owns in the store. -/
def unusedCount (store : List OtpRecord) (uid ty : Nat) : Nat :=
  store.countP (isUnusedFor uid ty)

/-- Number of active — unused and unexpired — codes of a `(userId, type)`
pair (a code counts as expired only when `now > expiresAt`, as in
`verifyOtp`). -/
def activeCount (store : List OtpRecord) (now uid ty : Nat) : Nat :=
  store.countP (fun r => isUnusedFor uid ty r && decide (now ≤ r.expiresAt))

/-- `OtpService.createOtp`: first `updateMany` marks every unused code of the
same `(userId, type)` as used, then the new hashed code is inserted with
expiry `now + OTP_EXPIRY_MINUTES` and zero attempts. -/
def createOtp (store : List OtpRecord) (uid ty codeHash now rid : Nat) :
    List OtpRecord :=
  (store.map fun r =>
      if isUnusedFor uid ty r then { r with usedAt := some now } else r)
    ++ [⟨rid, uid, ty, codeHash, now + OTP_EXPIRY_MINUTES, none, 0, now⟩]

/-- Database update marking one record (by row id) as used. -/
def markUsed (store : List OtpRecord) (rid now : Nat) : List OtpRecord :=
  store.map fun x => if x.rid == rid then { x with usedAt := some now } else x

/-- Database update incrementing one record's attempt counter. -/
def incAttempts (store : List OtpRecord) (rid : Nat) : List OtpRecord :=
  store.map fun x =>
    if x.rid == rid then { x with attempts := x.attempts + 1 } else x

/-- The `findFirst ... orderBy createdAt desc` lookup of `verifyOtp`: the
unused record of this `(userId, type)` with the greatest `createdAt`
(the first such record on ties). -/
def findLatestUnused (store : List OtpRecord) (uid ty : Nat) :
    Option OtpRecord :=
  (store.filter (isUnusedFor uid ty)).foldl
    (fun acc r =>
      match acc with
      | none => some r
      | some b => if r.createdAt > b.createdAt then some r else acc)
    none

/-- Result of `OtpService.verifyOtp`, one constructor per return site. -/
inductive VerifyOutcome where
  | noOtp
  | expired
  | maxAttempts
  | invalid (remaining : Nat)
  | verified
deriving DecidableEq, Repr

/-- `OtpService.verifyOtp`: look up the most recent unused code, then in
order check expiry (`new Date() > expiresAt`), check the per-code attempt
cap (invalidating the code when hit), increment the attempt counter, and
only then compare the submitted code, marking the record used on match. -/
def verifyOtp (store : List OtpRecord) (uid code ty now : Nat) :
    VerifyOutcome × List OtpRecord :=
  match findLatestUnused store uid ty with
  | none => (.noOtp, store)
  | some r =>
    if now > r.expiresAt then
      (.expired, store)
    else if r.attempts ≥ MAX_OTP_ATTEMPTS then
      (.maxAttempts, markUsed store r.rid now)
    else
      let store1 := incAttempts store r.rid
      if code == r.code then
        (.verified, markUsed store1 r.rid now)
      else
        (.invalid (MAX_OTP_ATTEMPTS - (r.attempts + 1)), store1)

/-- `OtpService.cleanupExpiredOtps`: `deleteMany` removes records that are
expired or used, provided they are older than 24 hours (1440 minutes); the
store keeps everything else. -/
def cleanupExpiredOtps (store : List OtpRecord) (now : Nat) : List OtpRecord :=
  store.filter fun r =>
    !((decide (r.expiresAt < now) || r.usedAt.isSome)
        && decide (r.createdAt < now - 1440))

/-- A known-device row of the `userDevice` table, reduced to the columns the
risk score reads (`findFirst where userId, deviceHash`). -/
structure DeviceEntry where
  userId : Nat
  deviceHash : Nat
deriving DecidableEq, Repr

/-- A `loginHistory` row, reduced to the columns the risk score reads. -/
structure LoginHistoryEntry where
  userId : Nat
  ipAddress : Nat
  success : Bool
  createdAt : Nat
deriving DecidableEq, Repr

/-- The `userDevice.findFirst where userId, deviceHash` lookup: whether the
device hash is already registered for this user. -/
def knownDevice (devices : List DeviceEntry) (uid dh : Nat) : Bool :=
  devices.any fun d => d.userId == uid && d.deviceHash == dh

/-- The count of failed attempts of this user in the last 15 minutes
(`createdAt ≥ now − 15·60·1000`, timestamps in milliseconds here, stated
without subtraction as `now ≤ createdAt + 900000`). -/
def recentAccountFailures (hist : List LoginHistoryEntry) (uid now : Nat) : Nat :=
  hist.countP fun e =>
    e.userId == uid && !e.success && decide (now ≤ e.createdAt + 15 * 60 * 1000)

/-- The count of failed attempts from this IP across all accounts in the
last hour. -/
def recentIpFailures (hist : List LoginHistoryEntry) (ip now : Nat) : Nat :=
  hist.countP fun e =>
    e.ipAddress == ip && !e.success && decide (now ≤ e.createdAt + 60 * 60 * 1000)

/-- The `hour >= 2 && hour <= 5` check of `calculateRiskScore` (the
02:00–05:00 unusual-time window, inclusive of the 05:00 hour). -/
def hourInUnusualWindow (hour : Nat) : Bool :=
  2 ≤ hour && hour ≤ 5

/-- `calculateRiskScore` of `suspiciousActivity.service.js`: additive
buckets for new device (+30), recent account failures (+min(n·10, 30)),
unusual hour (+15) and suspicious IP (+25 when more than 5 recent failures),
capped at 100.  The database reads of the source become the explicit
`devices` / `hist` arguments; `dh` is the device hash derived from user
agent and IP, and `hour` is the local hour the source takes from the
clock. -/
def calculateRiskScore (devices : List DeviceEntry)
    (hist : List LoginHistoryEntry) (uid dh ip now hour : Nat) : Nat :=
  let s1 := if knownDevice devices uid dh then 0 else 30
  let s2 := s1 + min (recentAccountFailures hist uid now * 10) 30
  let s3 := s2 + (if hourInUnusualWindow hour then 15 else 0)
  let s4 := s3 + (if recentIpFailures hist ip now > 5 then 25 else 0)
  min s4 100

/-- Modelled from the spec: the bucket description of section 4.2 — each
factor contributes an additive bucket (new device +30, up to +30 for recent
failures at +10 each, +15 for the unusual-time window, +25 for a suspicious
IP), and the sum is capped at 100.  Stated over the four derived inputs to
compare with `calculateRiskScore`. -/
def riskScoreSpec (newDevice : Bool) (failures : Nat) (unusualHour : Bool)
    (suspiciousIp : Bool) : Nat :=
  min ((if newDevice then 30 else 0) + min (failures * 10) 30
      + (if unusualHour then 15 else 0) + (if suspiciousIp then 25 else 0)) 100

/-- The operations of the system that touch one account's row or its OTP
codes: a login attempt, an MFA verification, the admin unlock endpoint and
the forgot-password reset. -/
inductive UserOp where
  | loginAttempt (pw now newCode newRid : Nat)
  | mfaVerify (code now : Nat)
  | adminUnlock
  | passwordReset (newPw : Nat)
deriving DecidableEq, Repr

/-- The OTP `type` value `LOGIN` used by the MFA flow. -/
def LOGIN_TYPE : Nat := 0

/-- One account's slice of the database: its user row and the OTP store. -/
structure SysState where
  user : AccountState
  otps : List OtpRecord
deriving DecidableEq, Repr

/-- One step of the system: `loginAttempt` runs the login route (the MFA
branch additionally runs `createOtp` for the `LOGIN` purpose); `mfaVerify`
runs `verifyOtp` and resets the counter only on `VERIFIED`
(`POST /api/auth/mfa/verify`); `adminUnlock` and `passwordReset` run their
unconditional updates. -/
def applyOp (s : SysState) : UserOp → SysState
  | .loginAttempt pw now newCode newRid =>
    let r := loginUser s.user pw now true true
    if r.1.outcome = .mfaRequired then
      { user := r.2, otps := createOtp s.otps s.user.id LOGIN_TYPE newCode now newRid }
    else
      { user := r.2, otps := s.otps }
  | .mfaVerify code now =>
    let r := verifyOtp s.otps s.user.id code LOGIN_TYPE now
    if r.1 = .verified then
      { user := resetLoginAttempts s.user, otps := r.2 }
    else
      { user := s.user, otps := r.2 }
  | .adminUnlock =>
    { user := adminUnlockUser s.user, otps := s.otps }
  | .passwordReset newPw =>
    { user := resetPasswordUser s.user newPw, otps := s.otps }

/-- The OTP store invariant: every `(userId, type)` pair owns at most one
unused code (this is stronger than at most one unused unexpired code). -/
def OtpInv (store : List OtpRecord) : Prop :=
  ∀ uid ty, unusedCount store uid ty ≤ 1

/-! Helper lemmas. -/

lemma wrongLogins_closed (uid : Nat) (mfa : Bool) (pwd pw now : Nat)
    (hpw : pw ≠ pwd) :
    ∀ k, k ≤ MAX_LOGIN_ATTEMPTS →
      wrongLogins ⟨uid, 0, none, mfa, true, pwd⟩ pw now k =
        ⟨uid, k,
          if MAX_LOGIN_ATTEMPTS ≤ k then some (now + LOCKOUT_DURATION_MINUTES)
          else none, mfa, true, pwd⟩ := by
  intro k
  induction k with
  | zero =>
    intro _
    simp [wrongLogins, MAX_LOGIN_ATTEMPTS]
  | succ k ih =>
    intro hk
    have hk5 : k ≤ MAX_LOGIN_ATTEMPTS := Nat.le_of_succ_le hk
    have hklt : ¬ (MAX_LOGIN_ATTEMPTS ≤ k) := by
      simp only [MAX_LOGIN_ATTEMPTS] at *
      omega
    rw [wrongLogins, ih hk5, if_neg hklt]
    by_cases hge : MAX_LOGIN_ATTEMPTS ≤ k + 1
    · simp [loginUser, loginUnlocked, hpw, recordFailedAttempt, hge,
        createAlert, sendAlertEmail]
    · simp [loginUser, loginUnlocked, hpw, recordFailedAttempt, hge]

lemma loginUser_resets_only (u : AccountState) (pw now : Nat) (d e : Bool)
    (hnz : u.loginAttempts ≠ 0)
    (h : (loginUser u pw now d e).2.loginAttempts = 0) :
    pw = u.password ∧ u.mfaEnabled = false := by
  by_cases hact : u.isActive = false
  · simp [loginUser, hact] at h
    exact absurd h hnz
  · have hact' : u.isActive = true := by
      cases hA : u.isActive
      · exact absurd hA hact
      · rfl
    have hunlocked :
        (loginUnlocked u pw now d e).2.loginAttempts = 0 →
          pw = u.password ∧ u.mfaEnabled = false := by
      intro h'
      by_cases hpw : pw ≠ u.password
      · exfalso
        by_cases hlock : MAX_LOGIN_ATTEMPTS ≤ u.loginAttempts + 1
        · cases hca : createAlert d e <;>
            simp [loginUnlocked, hpw, recordFailedAttempt, hlock, hca] at h'
        · simp [loginUnlocked, hpw, recordFailedAttempt, hlock] at h'
      · push_neg at hpw
        by_cases hmfa : u.mfaEnabled = true
        · exfalso
          simp [loginUnlocked, hpw, hmfa] at h'
          exact hnz h'
        · refine ⟨hpw, ?_⟩
          cases hm : u.mfaEnabled
          · rfl
          · exact absurd hm hmfa
    cases hLu : u.lockedUntil with
    | some t =>
      by_cases ht : now < t
      · simp [loginUser, hact', hLu, ht] at h
        exact absurd h hnz
      · apply hunlocked
        simpa [loginUser, hact', hLu, ht] using h
    | none =>
      apply hunlocked
      simpa [loginUser, hact', hLu] using h

lemma unusedCount_map_le (uid ty : Nat) (g : OtpRecord → OtpRecord)
    (hg : ∀ x, isUnusedFor uid ty (g x) = true → isUnusedFor uid ty x = true)
    (store : List OtpRecord) :
    unusedCount (store.map g) uid ty ≤ unusedCount store uid ty := by
  simp only [unusedCount, List.countP_map]
  exact List.countP_mono_left (fun x _ hx => hg x hx)

lemma isUnusedFor_setUsed (uid ty : Nat) (r : OtpRecord) (now : Nat) :
    isUnusedFor uid ty { r with usedAt := some now } = false := by
  simp [isUnusedFor]

lemma isUnusedFor_incAttempts (uid ty : Nat) (r : OtpRecord) :
    isUnusedFor uid ty { r with attempts := r.attempts + 1 }
      = isUnusedFor uid ty r := by
  simp [isUnusedFor]

lemma unusedCount_markUsed_le (store : List OtpRecord) (rid now uid ty : Nat) :
    unusedCount (markUsed store rid now) uid ty ≤ unusedCount store uid ty := by
  apply unusedCount_map_le
  intro x hx
  by_cases hr : x.rid = rid
  · rw [if_pos (by simp [hr])] at hx
    rw [isUnusedFor_setUsed] at hx
    exact absurd hx (by simp)
  · rwa [if_neg (by simp [hr])] at hx

lemma unusedCount_incAttempts (store : List OtpRecord) (rid uid ty : Nat) :
    unusedCount (incAttempts store rid) uid ty = unusedCount store uid ty := by
  simp only [unusedCount, incAttempts, List.countP_map]
  apply List.countP_congr
  intro x _
  have hbx : isUnusedFor uid ty
      (if x.rid == rid then { x with attempts := x.attempts + 1 } else x)
      = isUnusedFor uid ty x := by
    by_cases hr : x.rid = rid
    · rw [if_pos (by simp [hr]), isUnusedFor_incAttempts]
    · rw [if_neg (by simp [hr])]
  simp only [Function.comp_apply]
  rw [hbx]

lemma createOtp_unused_self (store : List OtpRecord)
    (uid ty codeHash now rid : Nat) :
    unusedCount (createOtp store uid ty codeHash now rid) uid ty = 1 := by
  simp only [createOtp, unusedCount, List.countP_append]
  have h0 : (store.map fun r =>
      if isUnusedFor uid ty r then { r with usedAt := some now } else r).countP
        (isUnusedFor uid ty) = 0 := by
    rw [List.countP_eq_zero]
    intro a ha
    obtain ⟨x, _, rfl⟩ := List.mem_map.mp ha
    by_cases hux : isUnusedFor uid ty x = true
    · rw [if_pos hux, isUnusedFor_setUsed]
      simp
    · rw [if_neg hux]
      exact hux
  rw [h0]
  simp [isUnusedFor]

lemma createOtp_unused_other (store : List OtpRecord)
    (uid ty codeHash now rid uid2 ty2 : Nat) (hne : ¬(uid2 = uid ∧ ty2 = ty)) :
    unusedCount (createOtp store uid ty codeHash now rid) uid2 ty2
      ≤ unusedCount store uid2 ty2 := by
  simp only [createOtp, unusedCount, List.countP_append]
  have hnew : List.countP (isUnusedFor uid2 ty2)
      [⟨rid, uid, ty, codeHash, now + OTP_EXPIRY_MINUTES, none, 0, now⟩] = 0 := by
    rw [List.countP_eq_zero]
    intro a ha
    rw [List.mem_singleton] at ha
    subst ha
    simp only [isUnusedFor]
    intro hcontra
    rcases Bool.and_eq_true_iff.mp (Bool.and_eq_true_iff.mp hcontra).1 with ⟨h1, h2⟩
    exact hne ⟨(Nat.beq_eq_true_eq _ _ ▸ h1).symm, (Nat.beq_eq_true_eq _ _ ▸ h2).symm⟩
  rw [hnew, Nat.add_zero]
  apply unusedCount_map_le
  intro x hx
  by_cases hux : isUnusedFor uid ty x = true
  · rw [if_pos hux, isUnusedFor_setUsed] at hx
    exact absurd hx (by simp)
  · rwa [if_neg hux] at hx

lemma verifyOtp_unused_le (store : List OtpRecord)
    (uid code ty now uid2 ty2 : Nat) :
    unusedCount (verifyOtp store uid code ty now).2 uid2 ty2
      ≤ unusedCount store uid2 ty2 := by
  unfold verifyOtp
  cases hf : findLatestUnused store uid ty with
  | none => simp
  | some r =>
    by_cases hexp : now > r.expiresAt
    · simp [hexp]
    · by_cases hmax : r.attempts ≥ MAX_OTP_ATTEMPTS
      · simp only [hexp, if_false, hmax, if_true]
        exact unusedCount_markUsed_le store r.rid now uid2 ty2
      · by_cases hcode : (code == r.code) = true
        · simp only [hexp, if_false, hmax, if_true, hcode]
          calc unusedCount (markUsed (incAttempts store r.rid) r.rid now) uid2 ty2
              ≤ unusedCount (incAttempts store r.rid) uid2 ty2 :=
                unusedCount_markUsed_le _ r.rid now uid2 ty2
            _ = unusedCount store uid2 ty2 :=
                unusedCount_incAttempts store r.rid uid2 ty2
        · simp only [hexp, if_false, hmax, if_true, hcode]
          exact Nat.le_of_eq (unusedCount_incAttempts store r.rid uid2 ty2)

lemma cleanup_unused_le (store : List OtpRecord) (now uid2 ty2 : Nat) :
    unusedCount (cleanupExpiredOtps store now) uid2 ty2
      ≤ unusedCount store uid2 ty2 :=
  (List.filter_sublist store).countP_le _

lemma activeCount_le_unusedCount (store : List OtpRecord) (now uid ty : Nat) :
    activeCount store now uid ty ≤ unusedCount store uid ty :=
  List.countP_mono_left fun _ _ hx => (Bool.and_eq_true_iff.mp hx).1

/-! Claim theorems. -/

/-- Claim C1 (counterexample): for an MFA-enabled account that went through
exactly five consecutive failed attempts and whose lock has expired, the
correct-password login at the expiry instant is accepted (success flag
`true`, outcome `MFA_REQUIRED`), yet the failed-attempt counter is not 0 —
it still holds 5, because the reset happens only after OTP verification.
This refutes the claim's final clause for MFA-enabled accounts. -/
theorem lockout_mfa_counterexample :
    (wrongLogins ⟨1, 0, none, true, true, 7⟩ 3 0 5).lockedUntil = some 15
    ∧ (loginUser (wrongLogins ⟨1, 0, none, true, true, 7⟩ 3 0 5) 7 15 true true).1.success
        = true
    ∧ (loginUser (wrongLogins ⟨1, 0, none, true, true, 7⟩ 3 0 5) 7 15 true true).1.outcome
        = .mfaRequired
    ∧ (loginUser (wrongLogins ⟨1, 0, none, true, true, 7⟩ 3 0 5) 7 15 true true).2.loginAttempts
        ≠ 0 := by
  refine ⟨by decide, by decide, by decide, by decide⟩

/-- Claim C1 (amended): for an account without MFA, after exactly
`MAX_LOGIN_ATTEMPTS = 5` consecutive failed attempts starting from a clean
counter, `lockedUntil` is set 15 minutes into the future; every login before
that instant — whatever the password — is rejected with HTTP 423 and leaves
the account unchanged; and at or after the expiry instant a correct-password
login succeeds with the counter reset to 0. -/
theorem lockout_after_five_failures (u : AccountState) (pw pwAny t1 t2 now : Nat)
    (h0 : u.loginAttempts = 0) (hL : u.lockedUntil = none)
    (hA : u.isActive = true) (hpw : pw ≠ u.password) (hM : u.mfaEnabled = false)
    (h1 : t1 < now + LOCKOUT_DURATION_MINUTES)
    (h2 : now + LOCKOUT_DURATION_MINUTES ≤ t2) :
    (wrongLogins u pw now MAX_LOGIN_ATTEMPTS).loginAttempts = MAX_LOGIN_ATTEMPTS
    ∧ (wrongLogins u pw now MAX_LOGIN_ATTEMPTS).lockedUntil
        = some (now + LOCKOUT_DURATION_MINUTES)
    ∧ (loginUser (wrongLogins u pw now MAX_LOGIN_ATTEMPTS) pwAny t1 true true).1.status
        = 423
    ∧ (loginUser (wrongLogins u pw now MAX_LOGIN_ATTEMPTS) pwAny t1 true true).2
        = wrongLogins u pw now MAX_LOGIN_ATTEMPTS
    ∧ (loginUser (wrongLogins u pw now MAX_LOGIN_ATTEMPTS) u.password t2 true true).1.outcome
        = .ok
    ∧ (loginUser (wrongLogins u pw now MAX_LOGIN_ATTEMPTS) u.password t2 true true).2.loginAttempts
        = 0 := by
  obtain ⟨uid, la, lu, mfa, act, pwd⟩ := u
  simp only at h0 hL hA hM hpw
  subst h0 hL hA hM
  have h5 := wrongLogins_closed uid false pwd pw now hpw MAX_LOGIN_ATTEMPTS (le_refl _)
  rw [h5, if_pos (le_refl _)]
  have hnl2 : ¬ (t2 < now + LOCKOUT_DURATION_MINUTES) := not_lt.mpr h2
  refine ⟨rfl, rfl, ?_, ?_, ?_, ?_⟩
  · simp [loginUser, h1, lockedRes]
  · simp [loginUser, h1, lockedRes]
  · simp [loginUser, loginUnlocked, hnl2, okRes, resetLoginAttempts]
  · simp [loginUser, loginUnlocked, hnl2, okRes, resetLoginAttempts]

/-- Claim C1 (witness): the amended theorem instantiated at a concrete
non-MFA account, wrong password 3, correct password 7, lock window 0–15. -/
theorem lockout_after_five_failures_witness :
    (wrongLogins ⟨1, 0, none, false, true, 7⟩ 3 0 MAX_LOGIN_ATTEMPTS).loginAttempts
        = MAX_LOGIN_ATTEMPTS
    ∧ (wrongLogins ⟨1, 0, none, false, true, 7⟩ 3 0 MAX_LOGIN_ATTEMPTS).lockedUntil
        = some (0 + LOCKOUT_DURATION_MINUTES)
    ∧ (loginUser (wrongLogins ⟨1, 0, none, false, true, 7⟩ 3 0 MAX_LOGIN_ATTEMPTS)
        9 14 true true).1.status = 423
    ∧ (loginUser (wrongLogins ⟨1, 0, none, false, true, 7⟩ 3 0 MAX_LOGIN_ATTEMPTS)
        9 14 true true).2 = wrongLogins ⟨1, 0, none, false, true, 7⟩ 3 0 MAX_LOGIN_ATTEMPTS
    ∧ (loginUser (wrongLogins ⟨1, 0, none, false, true, 7⟩ 3 0 MAX_LOGIN_ATTEMPTS)
        7 15 true true).1.outcome = .ok
    ∧ (loginUser (wrongLogins ⟨1, 0, none, false, true, 7⟩ 3 0 MAX_LOGIN_ATTEMPTS)
        7 15 true true).2.loginAttempts = 0 :=
  lockout_after_five_failures ⟨1, 0, none, false, true, 7⟩ 3 9 14 15 0
    rfl rfl rfl (by decide) rfl (by decide) (by decide)

/-- Claim C2: a login attempt against an account whose `lockedUntil` lies in
the future is rejected with HTTP 423, the stored account row is returned
unchanged (no counter increment, no lock extension), and the whole response
is independent of the submitted password and of the alert flags — the
password comparison is never reached. -/
theorem login_locked_frame (u : AccountState) (pw pw' now t : Nat) (d e d' e' : Bool)
    (hA : u.isActive = true) (hL : u.lockedUntil = some t) (hT : now < t) :
    (loginUser u pw now d e).2 = u ∧ (loginUser u pw now d e).1.status = 423
    ∧ loginUser u pw now d e = loginUser u pw' now d' e' := by
  simp [loginUser, hA, hL, hT, lockedRes]

/-- Claim C2 (witness): a concrete locked account at `now = 5 < 10`, probed
with two different passwords and different alert flags. -/
theorem login_locked_frame_witness :
    (loginUser ⟨1, 0, some 10, false, true, 7⟩ 3 5 true true).2
        = ⟨1, 0, some 10, false, true, 7⟩
    ∧ (loginUser ⟨1, 0, some 10, false, true, 7⟩ 3 5 true true).1.status = 423
    ∧ loginUser ⟨1, 0, some 10, false, true, 7⟩ 3 5 true true
        = loginUser ⟨1, 0, some 10, false, true, 7⟩ 4 5 false false :=
  login_locked_frame ⟨1, 0, some 10, false, true, 7⟩ 3 4 5 10 true true false false
    rfl rfl (by decide)

/-- Claim C3: assuming the store invariant (at most one unused code per
`(userId, type)`), every operation preserves it: `createOtp` re-establishes
it — leaving exactly one unused code for the pair it creates, because it
first marks all prior unused codes of that pair as used — `verifyOtp` and
`cleanupExpiredOtps` never increase the count, and the invariant bounds the
number of active (unused and unexpired) codes by one at every time. -/
theorem otp_single_active (store : List OtpRecord)
    (uid ty codeHash now rid uid2 code ty2 now2 now3 : Nat) (h : OtpInv store) :
    OtpInv (createOtp store uid ty codeHash now rid)
    ∧ unusedCount (createOtp store uid ty codeHash now rid) uid ty = 1
    ∧ OtpInv (verifyOtp store uid2 code ty2 now2).2
    ∧ OtpInv (cleanupExpiredOtps store now3)
    ∧ (∀ u t n, activeCount store n u t ≤ 1) := by
  refine ⟨?_, createOtp_unused_self store uid ty codeHash now rid, ?_, ?_, ?_⟩
  · intro u2 t2
    by_cases heq : u2 = uid ∧ t2 = ty
    · obtain ⟨h1, h2⟩ := heq
      subst h1; subst h2
      exact Nat.le_of_eq (createOtp_unused_self store u2 t2 codeHash now rid)
    · exact le_trans (createOtp_unused_other store uid ty codeHash now rid u2 t2 heq)
        (h u2 t2)
  · intro u2 t2
    exact le_trans (verifyOtp_unused_le store uid2 code ty2 now2 u2 t2) (h u2 t2)
  · intro u2 t2
    exact le_trans (cleanup_unused_le store now3 u2 t2) (h u2 t2)
  · intro u t n
    exact le_trans (activeCount_le_unusedCount store n u t) (h u t)

/-- Claim C3 (witness): the invariant theorem evaluated from the empty store
(which trivially satisfies the invariant). -/
theorem otp_single_active_witness :
    unusedCount (createOtp [] 1 0 42 0 100) 1 0 = 1
    ∧ unusedCount (verifyOtp [] 2 5 3 7).2 4 6 ≤ 1
    ∧ unusedCount (cleanupExpiredOtps [] 7) 2 3 ≤ 1
    ∧ activeCount [] 0 1 2 ≤ 1 := by
  have h := otp_single_active [] 1 0 42 0 100 2 5 3 7 8
    (fun u t => by simp [unusedCount])
  exact ⟨h.2.1, h.2.2.1 4 6, by
    have := otp_single_active [] 1 0 42 0 100 2 5 3 7 7
      (fun u t => by simp [unusedCount])
    exact this.2.2.2.1 2 3, h.2.2.2.2 1 2 0⟩

/-- Claim C4: when the code record `verifyOtp` selects (the most recent
unused one for this `(userId, type)`) is past its expiry, the result is
EXPIRED for every submitted code — correct or not — the store is untouched,
and the outcome can never be VERIFIED: the expiry check precedes the hash
comparison. -/
theorem verifyOtp_expired (store : List OtpRecord) (uid code ty now : Nat)
    (r : OtpRecord)
    (hr : findLatestUnused store uid ty = some r) (hexp : now > r.expiresAt) :
    (verifyOtp store uid code ty now).1 = .expired
    ∧ (verifyOtp store uid code ty now).2 = store
    ∧ (verifyOtp store uid code ty now).1 ≠ .verified := by
  simp [verifyOtp, hr, hexp]

/-- Claim C4 (witness): a store holding one code that expired at time 5,
probed at time 6 with the exactly correct code 42. -/
theorem verifyOtp_expired_witness :
    (verifyOtp [⟨100, 1, 0, 42, 5, none, 0, 0⟩] 1 42 0 6).1 = .expired
    ∧ (verifyOtp [⟨100, 1, 0, 42, 5, none, 0, 0⟩] 1 42 0 6).2
        = [⟨100, 1, 0, 42, 5, none, 0, 0⟩]
    ∧ (verifyOtp [⟨100, 1, 0, 42, 5, none, 0, 0⟩] 1 42 0 6).1 ≠ .verified :=
  verifyOtp_expired [⟨100, 1, 0, 42, 5, none, 0, 0⟩] 1 42 0 6
    ⟨100, 1, 0, 42, 5, none, 0, 0⟩ (by decide) (by decide)

/-- Claim C5: the risk score is a deterministic function of its four derived
inputs — whenever two invocations agree on the device-known flag, the
recent account-failure count, the hour of day and the IP-wide failure
count, they yield the same score, regardless of the underlying stores,
identities or clocks. -/
theorem riskScore_deterministic (devices devices' : List DeviceEntry)
    (hist hist' : List LoginHistoryEntry)
    (uid uid' dh dh' ip ip' now now' hour hour' : Nat)
    (h1 : knownDevice devices uid dh = knownDevice devices' uid' dh')
    (h2 : recentAccountFailures hist uid now = recentAccountFailures hist' uid' now')
    (h3 : hour = hour')
    (h4 : recentIpFailures hist ip now = recentIpFailures hist' ip' now') :
    calculateRiskScore devices hist uid dh ip now hour
      = calculateRiskScore devices' hist' uid' dh' ip' now' hour' := by
  simp only [calculateRiskScore, h1, h2, h3, h4]

/-- Claim C5 (witness): two different database contents that derive the same
four inputs produce the same score. -/
theorem riskScore_deterministic_witness :
    calculateRiskScore [] [] 1 5 9 0 3
      = calculateRiskScore [⟨2, 3⟩] [⟨1, 9, true, 0⟩] 1 5 9 0 3 :=
  riskScore_deterministic [] [⟨2, 3⟩] [] [⟨1, 9, true, 0⟩] 1 1 5 5 9 9 0 0 3 3
    (by decide) (by decide) rfl (by decide)

/-- Claim C6: the risk score equals the additive bucket sum capped at 100
(+30 for a new device, +min(failures·10, 30), +15 for the 02:00–05:00
window as checked by the code, +25 for a suspicious IP), is always at most
100, and on the spec's example inputs (new device, 2 recent account
failures, hour 3, no IP failures) evaluates to 30 + 20 + 15 = 65. -/
theorem riskScore_buckets (devices : List DeviceEntry)
    (hist : List LoginHistoryEntry) (uid dh ip now hour : Nat) :
    calculateRiskScore devices hist uid dh ip now hour
      = riskScoreSpec (!knownDevice devices uid dh)
          (recentAccountFailures hist uid now) (hourInUnusualWindow hour)
          (decide (recentIpFailures hist ip now > 5))
    ∧ calculateRiskScore devices hist uid dh ip now hour ≤ 100
    ∧ (knownDevice devices uid dh = false →
        recentAccountFailures hist uid now = 2 →
        hourInUnusualWindow hour = true →
        recentIpFailures hist ip now = 0 →
        calculateRiskScore devices hist uid dh ip now hour = 65) := by
  refine ⟨?_, ?_, ?_⟩
  · cases hkd : knownDevice devices uid dh <;>
      simp [calculateRiskScore, riskScoreSpec, hkd]
  · simp only [calculateRiskScore]
    exact min_le_right _ _
  · intro h1 h2 h3 h4
    simp [calculateRiskScore, h1, h2, h3, h4]

/-- Claim C6 (witness): a concrete history realising the spec's example —
unknown device, two recent account failures, 03:00, no IP failures — scores
exactly 65. -/
theorem riskScore_buckets_witness :
    calculateRiskScore [] [⟨1, 4, false, 0⟩, ⟨1, 4, false, 0⟩] 1 5 9 1000 3
      = riskScoreSpec true 2 true false
    ∧ calculateRiskScore [] [⟨1, 4, false, 0⟩, ⟨1, 4, false, 0⟩] 1 5 9 1000 3 ≤ 100
    ∧ calculateRiskScore [] [⟨1, 4, false, 0⟩, ⟨1, 4, false, 0⟩] 1 5 9 1000 3 = 65 := by
  have h := riskScore_buckets [] [⟨1, 4, false, 0⟩, ⟨1, 4, false, 0⟩] 1 5 9 1000 3
  exact ⟨by simpa using h.1, h.2.1,
    h.2.2 (by decide) (by decide) (by decide) (by decide)⟩

/-- Claim C7 (counterexample): the wrong-password error body for an existing
account differs from the unknown-account error body (the former appends the
remaining-attempt count), and `POST /api/auth/check-email` answers `true`
for a registered email and `false` for an unknown one — so the claim that
no response distinguishes the two cases is false. -/
theorem login_enumeration_counterexample :
    (loginUser ⟨1, 0, none, false, true, 1⟩ 2 0 true true).1.message
        ≠ (login none 2 0 true true).1.message
    ∧ (checkEmail (some ⟨1, 0, none, false, true, 1⟩)).existsFlag
        ≠ (checkEmail none).existsFlag := by
  constructor
  · decide
  · decide

/-- Claim C7 (amended): the unknown-account and wrong-password branches both
answer HTTP 401 with the invalid-credentials outcome, and the wrong-password
message extends the unknown-account message ("Invalid credentials") by a
suffix carrying the remaining-attempt count — so the bodies are
distinguishable; moreover `POST /api/auth/check-email` openly discloses
whether an email is registered. -/
theorem login_enumeration_amended (u : AccountState) (pw now : Nat)
    (hA : u.isActive = true) (hnl : lockActive u now = false)
    (hpw : pw ≠ u.password) (hlt : u.loginAttempts + 1 < MAX_LOGIN_ATTEMPTS) :
    (login none pw now true true).1.status = 401
    ∧ (loginUser u pw now true true).1.status = 401
    ∧ (login none pw now true true).1.outcome = .invalid
    ∧ (loginUser u pw now true true).1.outcome = .invalid
    ∧ (∃ rest, (loginUser u pw now true true).1.message
        = (login none pw now true true).1.message ++ rest)
    ∧ (checkEmail (some u)).existsFlag = true
    ∧ (checkEmail none).existsFlag = false := by
  have hno : ¬ (MAX_LOGIN_ATTEMPTS ≤ u.loginAttempts + 1) := not_le.mpr hlt
  have hbranch : loginUser u pw now true true
      = (invalidRemainingRes (MAX_LOGIN_ATTEMPTS - (u.loginAttempts + 1)),
          { u with loginAttempts := u.loginAttempts + 1 }) := by
    cases hLu : u.lockedUntil with
    | none =>
      simp [loginUser, loginUnlocked, hA, hLu, hpw, recordFailedAttempt, hno]
    | some t =>
      have ht : ¬ (now < t) := by
        simp [lockActive, hLu] at hnl
        omega
      simp [loginUser, loginUnlocked, hA, hLu, ht, hpw, recordFailedAttempt, hno]
  rw [hbranch]
  refine ⟨rfl, rfl, rfl, rfl, ?_, by simp [checkEmail], rfl⟩
  refine ⟨". " ++ toString (MAX_LOGIN_ATTEMPTS - (u.loginAttempts + 1))
    ++ " attempt(s) remaining.", ?_⟩
  simp only [login, invalidRemainingRes, invalidCredsRes]
  rw [← String.append_assoc, ← String.append_assoc]
  rfl

/-- Claim C7 (witness): the amended theorem at a concrete account with three
attempt slots left. -/
theorem login_enumeration_amended_witness :
    (login none 3 0 true true).1.status = 401
    ∧ (loginUser ⟨1, 0, none, false, true, 7⟩ 3 0 true true).1.status = 401
    ∧ (login none 3 0 true true).1.outcome = .invalid
    ∧ (loginUser ⟨1, 0, none, false, true, 7⟩ 3 0 true true).1.outcome = .invalid
    ∧ (∃ rest, (loginUser ⟨1, 0, none, false, true, 7⟩ 3 0 true true).1.message
        = (login none 3 0 true true).1.message ++ rest)
    ∧ (checkEmail (some ⟨1, 0, none, false, true, 7⟩)).existsFlag = true
    ∧ (checkEmail none).existsFlag = false :=
  login_enumeration_amended ⟨1, 0, none, false, true, 7⟩ 3 0
    rfl (by decide) (by decide) (by decide)

/-- Claim C8 (counterexample): on the attempt that locks the account, a
failure to create the SecurityAlert record escapes `createAlert` and is
converted by the route's catch-all into HTTP 500 — a different response
than the 423 returned when the alert succeeds, refuting the claim that a
notification failure never changes the outcome. -/
theorem alert_failure_counterexample :
    (loginUser ⟨1, 4, none, false, true, 7⟩ 3 0 false true).1.status = 500
    ∧ (loginUser ⟨1, 4, none, false, true, 7⟩ 3 0 true true).1.status = 423
    ∧ (loginUser ⟨1, 4, none, false, true, 7⟩ 3 0 false true).1
        ≠ (loginUser ⟨1, 4, none, false, true, 7⟩ 3 0 true true).1 := by
  refine ⟨by decide, by decide, by decide⟩

/-- Claim C8 (amended): a failed alert email never changes anything — the
whole login result is independent of the email flag — but a failed alert
record creation on the locking attempt turns the 423 LOCKED response into
a 500 server error; the stored account state is the same either way (the
account is locked for the full duration before the alert is attempted). -/
theorem alert_failure_amended (u : AccountState) (pw now : Nat) (d e e' : Bool)
    (hA : u.isActive = true) (hnl : lockActive u now = false)
    (hpw : pw ≠ u.password) (hge : MAX_LOGIN_ATTEMPTS ≤ u.loginAttempts + 1) :
    loginUser u pw now d e = loginUser u pw now d e'
    ∧ (loginUser u pw now false e).1.status = 500
    ∧ (loginUser u pw now false e).2 = (loginUser u pw now true e).2
    ∧ (loginUser u pw now false e).2.lockedUntil
        = some (now + LOCKOUT_DURATION_MINUTES) := by
  have hbranch : ∀ d' e'', loginUser u pw now d' e''
      = ((match createAlert d' e'' with
          | .error _ => serverErrorRes
          | .ok _ => lockedNowRes),
          { u with loginAttempts := u.loginAttempts + 1,
                   lockedUntil := some (now + LOCKOUT_DURATION_MINUTES) }) := by
    intro d' e''
    cases hLu : u.lockedUntil with
    | none =>
      simp [loginUser, loginUnlocked, hA, hLu, hpw, recordFailedAttempt, hge]
      cases createAlert d' e'' <;> rfl
    | some t =>
      have ht : ¬ (now < t) := by
        simp [lockActive, hLu] at hnl
        omega
      simp [loginUser, loginUnlocked, hA, hLu, ht, hpw, recordFailedAttempt, hge]
      cases createAlert d' e'' <;> rfl
  rw [hbranch d e, hbranch d e', hbranch false e, hbranch true e]
  cases d <;> simp [createAlert, serverErrorRes]

/-- Claim C8 (witness): the amended theorem at a concrete account one
failure away from the lock threshold. -/
theorem alert_failure_amended_witness :
    loginUser ⟨1, 4, none, false, true, 7⟩ 3 0 true true
        = loginUser ⟨1, 4, none, false, true, 7⟩ 3 0 true false
    ∧ (loginUser ⟨1, 4, none, false, true, 7⟩ 3 0 false true).1.status = 500
    ∧ (loginUser ⟨1, 4, none, false, true, 7⟩ 3 0 false true).2
        = (loginUser ⟨1, 4, none, false, true, 7⟩ 3 0 true true).2
    ∧ (loginUser ⟨1, 4, none, false, true, 7⟩ 3 0 false true).2.lockedUntil
        = some (0 + LOCKOUT_DURATION_MINUTES) :=
  alert_failure_amended ⟨1, 4, none, false, true, 7⟩ 3 0 true true false
    rfl (by decide) (by decide) (by decide)

/-- Claim C9 (counterexample): the admin unlock endpoint and the
forgot-password reset both set the failed-attempt counter to zero without
any password or OTP verification, refuting the claim that only a verified
login resets it. -/
theorem counter_reset_counterexample :
    (applyOp ⟨⟨1, 3, none, false, true, 7⟩, []⟩ .adminUnlock).user.loginAttempts = 0
    ∧ (applyOp ⟨⟨1, 3, none, false, true, 7⟩, []⟩ (.passwordReset 9)).user.loginAttempts = 0
    ∧ (3 : Nat) ≠ 0 := by
  refine ⟨by decide, by decide, by decide⟩

/-- Claim C9 (amended): starting from a nonzero counter, a login attempt
zeroes it only when the password is correct and MFA is disabled, an MFA
verification zeroes it only when the OTP verifies, and additionally the
admin unlock endpoint and the forgot-password reset zero it
unconditionally. -/
theorem counter_reset_amended (s : SysState) (pw now c rid code now2 npw : Nat)
    (hnz : s.user.loginAttempts ≠ 0) :
    ((applyOp s (.loginAttempt pw now c rid)).user.loginAttempts = 0 →
        pw = s.user.password ∧ s.user.mfaEnabled = false)
    ∧ ((applyOp s (.mfaVerify code now2)).user.loginAttempts = 0 →
        (verifyOtp s.otps s.user.id code LOGIN_TYPE now2).1 = .verified)
    ∧ (applyOp s .adminUnlock).user.loginAttempts = 0
    ∧ (applyOp s (.passwordReset npw)).user.loginAttempts = 0 := by
  refine ⟨?_, ?_, ?_, ?_⟩
  · intro h
    have huser : (applyOp s (.loginAttempt pw now c rid)).user
        = (loginUser s.user pw now true true).2 := by
      simp only [applyOp]
      by_cases hm : (loginUser s.user pw now true true).1.outcome = .mfaRequired <;>
        simp [hm]
    rw [huser] at h
    exact loginUser_resets_only s.user pw now true true hnz h
  · intro h
    by_cases hv : (verifyOtp s.otps s.user.id code LOGIN_TYPE now2).1 = .verified
    · exact hv
    · exfalso
      simp [applyOp, hv] at h
      exact hnz h
  · simp [applyOp, adminUnlockUser]
  · simp [applyOp, resetPasswordUser]

/-- Claim C9 (witness): the amended theorem at a concrete account with two
recorded failures and an empty OTP store. -/
theorem counter_reset_amended_witness :
    ((applyOp ⟨⟨1, 2, none, false, true, 7⟩, []⟩ (.loginAttempt 7 0 5 9)).user.loginAttempts
          = 0 →
        (7 : Nat) = 7 ∧ false = false)
    ∧ ((applyOp ⟨⟨1, 2, none, false, true, 7⟩, []⟩ (.mfaVerify 3 0)).user.loginAttempts
          = 0 →
        (verifyOtp [] 1 3 LOGIN_TYPE 0).1 = .verified)
    ∧ (applyOp ⟨⟨1, 2, none, false, true, 7⟩, []⟩ .adminUnlock).user.loginAttempts = 0
    ∧ (applyOp ⟨⟨1, 2, none, false, true, 7⟩, []⟩ (.passwordReset 8)).user.loginAttempts
        = 0 :=
  counter_reset_amended ⟨⟨1, 2, none, false, true, 7⟩, []⟩ 7 0 5 9 3 0 8 (by decide)

/-- Claim C10: when a lock has expired but the counter (at or above the
threshold) was never reset, one more wrong-password attempt immediately
re-locks the account: the response is 423, the counter increments, and
`lockedUntil` is set a full `LOCKOUT_DURATION_MINUTES` past the current
instant. -/
theorem relock_after_expiry (u : AccountState) (pw now t : Nat)
    (hA : u.isActive = true) (hL : u.lockedUntil = some t) (hT : t ≤ now)
    (hGE : MAX_LOGIN_ATTEMPTS ≤ u.loginAttempts) (hpw : pw ≠ u.password) :
    (loginUser u pw now true true).1.status = 423
    ∧ (loginUser u pw now true true).1.outcome = .lockedNow
    ∧ (loginUser u pw now true true).2.loginAttempts = u.loginAttempts + 1
    ∧ (loginUser u pw now true true).2.lockedUntil
        = some (now + LOCKOUT_DURATION_MINUTES) := by
  have hnl : ¬ (now < t) := not_lt.mpr hT
  have hlock : MAX_LOGIN_ATTEMPTS ≤ u.loginAttempts + 1 := Nat.le_succ_of_le hGE
  simp [loginUser, loginUnlocked, hA, hL, hnl, hpw, recordFailedAttempt,
    createAlert, sendAlertEmail, hlock, lockedNowRes]

/-- Claim C10 (witness): an account whose lock expired at time 10 with a
counter of 5 is re-locked until time 25 by a single wrong password at time
10. -/
theorem relock_after_expiry_witness :
    (loginUser ⟨1, 5, some 10, false, true, 7⟩ 3 10 true true).1.status = 423
    ∧ (loginUser ⟨1, 5, some 10, false, true, 7⟩ 3 10 true true).1.outcome = .lockedNow
    ∧ (loginUser ⟨1, 5, some 10, false, true, 7⟩ 3 10 true true).2.loginAttempts = 5 + 1
    ∧ (loginUser ⟨1, 5, some 10, false, true, 7⟩ 3 10 true true).2.lockedUntil
        = some (10 + LOCKOUT_DURATION_MINUTES) :=
  relock_after_expiry ⟨1, 5, some 10, false, true, 7⟩ 3 10 10
    rfl rfl (by decide) (by decide) (by decide)
